import Mathlib

/-!
Verification development for the Jobportol repository.

Part 1: the Session Store (reducer-driven auth context in the unnamed
context module): data model, reducer, startup restore effect, login and
logout operations, and the useAuth accessor.

Part 2: the Application Form Validator (JobApplicationForm.tsx):
per-keystroke input filtering and whole-form validation.

Platform collaborators (localStorage, JSON.parse, JSON.stringify,
parseInt, Date.now) are modelled explicitly; the embedding notes at each
such definition what is modelled.
-/

/-! ## Session Store: data model -/

/-- The User identity record (from the types imported by the auth context
module; the fields are the ones the source constructs and reads). -/
structure User where
  id : String
  email : String
  name : String
  provider : String
  createdAt : String
  avatar : Option String := none
deriving DecidableEq, Repr

/-- The AuthState record held by the reducer. Field names and order follow
the initialState literal in the source. The user field is an Option User:
the SET_USER payload declares a non-null User in TypeScript, but the
startup restore dispatches whatever JSON.parse returned, which is the JS
null value when the stored text is the string "null"; Option captures
that runtime possibility. -/
structure AuthState where
  user : Option User
  token : Option String
  isLoading : Bool
  isAuthenticated : Bool
deriving DecidableEq, Repr

/-- The AuthAction tagged union of the source. -/
inductive AuthAction where
  | SET_LOADING (payload : Bool)
  | SET_USER (user : Option User) (token : String)
  | CLEAR_USER
deriving DecidableEq, Repr

/-- authReducer from the source: SET_LOADING overwrites isLoading only;
SET_USER installs user and token and asserts isAuthenticated while
clearing isLoading; CLEAR_USER resets every field. The TypeScript switch
has an unreachable default branch returning the state; the closed
inductive covers all constructed actions. -/
def authReducer (state : AuthState) (action : AuthAction) : AuthState :=
  match action with
  | .SET_LOADING b =>
      { state with isLoading := b }
  | .SET_USER user token =>
      { state with
          user := user
          token := some token
          isAuthenticated := true
          isLoading := false }
  | .CLEAR_USER =>
      { user := none, token := none, isAuthenticated := false, isLoading := false }

/-- initialState from the source. -/
def initialState : AuthState :=
  { user := none, token := none, isLoading := true, isAuthenticated := false }

/-- Durable key-value storage (localStorage) restricted to the two fixed
keys the source uses: auth_token and user_data. A field holds none when
the key is absent (getItem returns null). -/
structure Storage where
  auth_token : Option String
  user_data : Option String
deriving DecidableEq, Repr

/-- JavaScript truthiness of a localStorage.getItem result: null is falsy
and so is the empty string. -/
def truthyOpt : Option String → Bool
  | none => false
  | some s => s != ""

/-- LoginCredentials record. -/
structure LoginCredentials where
  email : String
  password : String
deriving DecidableEq, Repr

/-- AuthResponse record returned by the authentication backend. -/
structure AuthResponse where
  user : User
  token : String
deriving DecidableEq, Repr

/-- mockAPI.login from the source, with the simulated delay elided and the
two platform reads parameterised: now stands for Date.now() and nowISO
for new Date().toISOString(). Credentials are checked against the
hard-coded pair; any other input throws the string below. -/
def mockAPI_login (now : Nat) (nowISO : String) (credentials : LoginCredentials) :
    Except String AuthResponse :=
  if credentials.email = "user@example.com" && credentials.password = "password123" then
    Except.ok
      { user :=
          { id := "1", email := credentials.email, name := "John Doe",
            provider := "email", createdAt := nowISO }
        token := "mock-jwt-token-" ++ toString now }
  else
    Except.error "Invalid credentials"

/-- Partial model of the platform JSON.stringify on a User record, used by
the login success path only as an opaque serialized string. The avatar
field is omitted when undefined, as JSON.stringify does. -/
def stringifyUser (u : User) : String :=
  "\x7b\"id\":\"" ++ u.id ++ "\",\"email\":\"" ++ u.email ++ "\",\"name\":\"" ++ u.name ++
    (match u.avatar with
     | none => ""
     | some a => "\",\"avatar\":\"" ++ a) ++
    "\",\"provider\":\"" ++ u.provider ++ "\",\"createdAt\":\"" ++ u.createdAt ++ "\"\x7d"

/-- A concrete user record for concrete evaluations. -/
def sampleUser : User :=
  { id := "1", email := "user@example.com", name := "John Doe",
    provider := "email", createdAt := "2024-01-01T00:00:00.000Z" }

/-- The serialized form of sampleUser, a syntactically valid JSON text. -/
def sampleUserJson : String :=
  "\x7b\"id\":\"1\",\"email\":\"user@example.com\",\"name\":\"John Doe\",\"provider\":\"email\",\"createdAt\":\"2024-01-01T00:00:00.000Z\"\x7d"

/-- Partial model of the platform JSON.parse restricted to the user_data
strings exercised in this development. The result type distinguishes a
throw (none) from a successful parse (some v), and a successful parse
further distinguishes the JSON null value (some none) from a user object
(some (some u)). Per ECMAScript, the text "null" parses successfully to
the null value, the sample serialized user parses to that user, and the
empty string and other non-JSON texts used here throw a SyntaxError. -/
def jsonParse (s : String) : Option (Option User) :=
  if s = "null" then some none
  else if s = sampleUserJson then some (some sampleUser)
  else none

/-- The startup restore effect of AuthProvider: read both keys; when both
are truthy, try to parse the user snapshot and dispatch SET_USER with the
parsed value and the stored token, removing both keys instead when the
parse throws; in every case finish by dispatching SET_LOADING false. The
parse function is a parameter standing for the platform JSON.parse. The
effect returns the storage and state left behind. -/
def restoreEffect (parse : String → Option (Option User))
    (storage : Storage) (s : AuthState) : Storage × AuthState :=
  let token := storage.auth_token
  let userData := storage.user_data
  if truthyOpt token && truthyOpt userData then
    match parse (userData.getD "") with
    | some user =>
        (storage,
         authReducer (authReducer s (.SET_USER user (token.getD ""))) (.SET_LOADING false))
    | none =>
        ({ auth_token := none, user_data := none },
         authReducer s (.SET_LOADING false))
  else
    (storage, authReducer s (.SET_LOADING false))

/-- The login operation of AuthProvider: dispatch SET_LOADING true, call
the backend (a parameter standing for mockAPI.login); on success write
both storage keys and dispatch SET_USER; on failure dispatch SET_LOADING
false and re-raise. The third component carries the re-raised error
(none on success). -/
def login (api : LoginCredentials → Except String AuthResponse)
    (credentials : LoginCredentials) (storage : Storage) (s : AuthState) :
    Storage × AuthState × Option String :=
  let s1 := authReducer s (.SET_LOADING true)
  match api credentials with
  | .ok response =>
      ({ auth_token := some response.token, user_data := some (stringifyUser response.user) },
       authReducer s1 (.SET_USER (some response.user) response.token),
       none)
  | .error err =>
      (storage, authReducer s1 (.SET_LOADING false), some err)

set_option linter.unusedVariables false in
/-- The logout operation of AuthProvider: remove both storage keys and
dispatch CLEAR_USER. It is synchronous and calls no backend (no api
parameter appears). -/
def logout (storage : Storage) (s : AuthState) : Storage × AuthState :=
  ({ auth_token := none, user_data := none }, authReducer s .CLEAR_USER)

/-- useAuth from the source: reads the context value (none when no
provider scope installed one) and throws the fixed message when it is
undefined, returning the installed value otherwise. -/
def useAuth {α : Type} (context : Option α) : Except String α :=
  match context with
  | none => Except.error "useAuth must be used within an AuthProvider"
  | some ctx => Except.ok ctx

/-! ## Session Store: reachability apparatus for the invariant claim -/

/-- Folding a list of dispatched actions through the reducer. -/
def applyActions (init : AuthState) (acts : List AuthAction) : AuthState :=
  acts.foldl authReducer init

/-- The specified store invariant: isAuthenticated holds exactly when both
user and token are non-null. -/
def authInvariant (s : AuthState) : Prop :=
  s.isAuthenticated = (s.user.isSome && s.token.isSome)

instance (s : AuthState) : Decidable (authInvariant s) := by
  unfold authInvariant; infer_instance

/-- An action respects the declared payload type when any SET_USER it
carries holds a non-null user. -/
def actionUserNonNull : AuthAction → Bool
  | .SET_USER u _ => u.isSome
  | _ => true

/-! ## Application Form Validator: data model -/

/-- FormData from JobApplicationForm.tsx. skills is kept as the list the
component stores (toggling appends or filters; the catalog has no
duplicates). -/
structure FormData where
  fullName : String
  email : String
  phone : String
  experience : String
  employmentStatus : String
  currentCompany : String
  skills : List String
  declaration : Bool
deriving DecidableEq, Repr

/-- FormErrors from JobApplicationForm.tsx: an optional message per
validated field. The employment-status radio group has no slot of its
own, matching the source interface. -/
structure FormErrors where
  fullName : Option String := none
  email : Option String := none
  phone : Option String := none
  experience : Option String := none
  currentCompany : Option String := none
  skills : Option String := none
  declaration : Option String := none
deriving DecidableEq, Repr

/-- The initial draft installed by useState: everything blank except the
email prefill from the authenticated user (user?.email with a fallback to
the empty string, which getD mirrors since an absent user yields
undefined and an empty email is replaced by the same empty string). -/
def initialFormData (userEmail : Option String) : FormData :=
  { fullName := "", email := userEmail.getD "", phone := "", experience := "",
    employmentStatus := "", currentCompany := "", skills := [], declaration := false }

/-! ## Application Form Validator: character-level helpers -/

/-- Splitting a character list at every occurrence of a separator, the
way String.prototype.split does (n separators give n+1 pieces, empty
pieces preserved). -/
def splitOnChar (sep : Char) (l : List Char) : List (List Char) :=
  match l with
  | [] => [[]]
  | c :: rest =>
    let r := splitOnChar sep rest
    if c = sep then [] :: r
    else
      match r with
      | [] => [[c]]
      | h :: t => (c :: h) :: t

/-- validateEmail from the source, a translation of the test of the regex
that requires one or more characters outside whitespace and at-sign, a
single at-sign, then a domain that splits at some dot into a non-empty
left part and a non-empty right part. Whitespace here is the ASCII
whitespace of Char.isWhitespace. Exactly one at-sign is equivalent to the
split producing exactly two pieces, and the dot requirement is equivalent
to the dot-split of the domain having at least two pieces with the first
and last non-empty. -/
def validateEmail (email : String) : Bool :=
  let cs := email.toList
  (cs.all fun c => !c.isWhitespace) &&
  (match splitOnChar '@' cs with
   | [localPart, domain] =>
       !localPart.isEmpty &&
       (let parts := splitOnChar '.' domain
        decide (parts.length ≥ 2) &&
        !(parts.head?.getD []).isEmpty && !(parts.getLast?.getD []).isEmpty)
   | _ => false)

/-- validatePhone from the source: the regex accepting exactly ten digit
characters. -/
def validatePhone (phone : String) : Bool :=
  decide (phone.toList.length = 10) && phone.toList.all Char.isDigit

/-- The character class of the full-name regex: letters, ASCII
whitespace, hyphens and apostrophes (Char.ofNat 39 is the apostrophe). -/
def nameChar (c : Char) : Bool :=
  c.isAlpha || c.isWhitespace || c = '-' || c = Char.ofNat 39

/-- Model of String.prototype.trim restricted to ASCII whitespace:
dropping whitespace from both ends of the character list. -/
def jsTrimList (l : List Char) : List Char :=
  ((l.dropWhile Char.isWhitespace).reverse.dropWhile Char.isWhitespace).reverse

/-- String-level trim built on jsTrimList. -/
def jsTrim (s : String) : String :=
  String.mk (jsTrimList s.toList)

/-- validateFullName from the source: the trimmed name matches the
one-or-more name-character regex and has length at least two. -/
def validateFullName (name : String) : Bool :=
  let t := jsTrimList name.toList
  (!t.isEmpty && t.all nameChar) && decide (t.length ≥ 2)

/-- Model of the platform parseInt applied with no radix argument to the
decimal-looking strings of this component: leading ASCII whitespace is
skipped, an optional sign is read, and the longest digit prefix is
converted; the result is NaN (none) when that prefix is empty. -/
def parseIntJS (s : String) : Option Int :=
  let cs := s.toList.dropWhile Char.isWhitespace
  let signed : Int × List Char :=
    match cs with
    | c :: rest =>
        if c = '-' then (-1, rest)
        else if c = '+' then (1, rest)
        else (1, c :: rest)
    | [] => (1, [])
  let digits := signed.2.takeWhile Char.isDigit
  if digits.isEmpty then none
  else some (signed.1 * ((digits.foldl (fun acc c => acc * 10 + (c.toNat - 48)) 0 : Nat) : Int))

/-- The experience condition of validateForm: parseInt below zero or NaN
(NaN compares false with zero, so the disjunction is true exactly when
the parse fails or yields a negative value). -/
def experienceBad (s : String) : Bool :=
  match parseIntJS s with
  | none => true
  | some n => decide (n < 0)

/-! ## Application Form Validator: whole-form validation -/

/-- validateForm from the source: a fresh error object is filled by the
sequential checks; each check writes its slot, and the employment-status
check writes the experience slot (as the source does). The function
returns the error object; the boolean the source returns is isEmptyErrors
of it. -/
def validateForm (formData : FormData) : FormErrors :=
  let newErrors : FormErrors := {}
  let newErrors :=
    if jsTrim formData.fullName = "" then
      { newErrors with fullName := some "Full name is required" }
    else if !validateFullName formData.fullName then
      { newErrors with
          fullName := some "Full name must contain only letters, spaces, hyphens, and apostrophes" }
    else newErrors
  let newErrors :=
    if jsTrim formData.email = "" then
      { newErrors with email := some "Email is required" }
    else if !validateEmail formData.email then
      { newErrors with email := some "Please enter a valid email address" }
    else newErrors
  let newErrors :=
    if jsTrim formData.phone = "" then
      { newErrors with phone := some "Phone number is required" }
    else if !validatePhone formData.phone then
      { newErrors with phone := some "Phone number must be exactly 10 digits" }
    else newErrors
  let newErrors :=
    if jsTrim formData.experience = "" then
      { newErrors with experience := some "Experience is required" }
    else if experienceBad formData.experience then
      { newErrors with experience := some "Experience must be 0 or greater" }
    else newErrors
  let newErrors :=
    if formData.employmentStatus = "" then
      { newErrors with experience := some "Please select your employment status" }
    else newErrors
  let newErrors :=
    if formData.employmentStatus = "yes" ∧ jsTrim formData.currentCompany = "" then
      { newErrors with currentCompany := some "Current company name is required" }
    else newErrors
  let newErrors :=
    if formData.skills.length = 0 then
      { newErrors with skills := some "Please select at least one skill" }
    else newErrors
  let newErrors :=
    if !formData.declaration then
      { newErrors with declaration := some "You must confirm the information is true" }
    else newErrors
  newErrors

/-- Object.keys(newErrors).length === 0 for an error object built by
validateForm: no slot is filled. -/
def isEmptyErrors (e : FormErrors) : Bool :=
  e.fullName.isNone && e.email.isNone && e.phone.isNone && e.experience.isNone &&
    e.currentCompany.isNone && e.skills.isNone && e.declaration.isNone

/-! ## Application Form Validator: input handling -/

/-- The fields of a change event the handler reads. The field etype
models e.target.type of the input element. -/
structure InputEvent where
  name : String
  value : String
  etype : String
  checked : Bool
deriving DecidableEq, Repr

/-- The computed-key update of a checkbox value: in this form the only
non-skills checkbox is the declaration; a computed key outside the
declared record would create a stray property no other code reads, so
other names leave the draft unchanged. -/
def setCheckboxField (fd : FormData) (name : String) (checked : Bool) : FormData :=
  if name = "declaration" then { fd with declaration := checked } else fd

/-- The computed-key update of a verbatim string value (the branch of the
handler with no filtering): the remaining text-like inputs of the form
are email, the employment-status radios and the company field; a computed
key outside the declared record would create a stray property no other
code reads, so other names leave the draft unchanged. -/
def setStringField (fd : FormData) (name : String) (v : String) : FormData :=
  if name = "email" then { fd with email := v }
  else if name = "employmentStatus" then { fd with employmentStatus := v }
  else if name = "currentCompany" then { fd with currentCompany := v }
  else fd

/-- Reading errors[name] by its computed key. -/
def getError (er : FormErrors) (name : String) : Option String :=
  if name = "fullName" then er.fullName
  else if name = "email" then er.email
  else if name = "phone" then er.phone
  else if name = "experience" then er.experience
  else if name = "currentCompany" then er.currentCompany
  else if name = "skills" then er.skills
  else if name = "declaration" then er.declaration
  else none

/-- Writing undefined into errors[name] by its computed key. -/
def clearError (er : FormErrors) (name : String) : FormErrors :=
  if name = "fullName" then { er with fullName := none }
  else if name = "email" then { er with email := none }
  else if name = "phone" then { er with phone := none }
  else if name = "experience" then { er with experience := none }
  else if name = "currentCompany" then { er with currentCompany := none }
  else if name = "skills" then { er with skills := none }
  else if name = "declaration" then { er with declaration := none }
  else er

/-- handleInputChange from the source: the draft update branches on the
event (skills toggle, checkbox, the three filtered text fields, verbatim
otherwise), and afterwards the error entry of the edited field is cleared
when one is present. The replace calls keep exactly the characters of
the respective classes; slice keeps the first ten. -/
def handleInputChange (e : InputEvent) (formData : FormData) (errors : FormErrors) :
    FormData × FormErrors :=
  let formData :=
    if e.etype = "checkbox" ∧ e.name = "skills" then
      { formData with skills :=
          if formData.skills.contains e.value then
            formData.skills.filter (fun s => s ≠ e.value)
          else
            formData.skills ++ [e.value] }
    else if e.etype = "checkbox" then
      setCheckboxField formData e.name e.checked
    else if e.name = "fullName" then
      { formData with fullName := String.mk (e.value.toList.filter nameChar) }
    else if e.name = "phone" then
      { formData with phone := String.mk ((e.value.toList.filter Char.isDigit).take 10) }
    else if e.name = "experience" then
      { formData with experience := String.mk (e.value.toList.filter Char.isDigit) }
    else
      setStringField formData e.name e.value
  let errors :=
    if (getError errors e.name).isSome then clearError errors e.name else errors
  (formData, errors)

/-! ## Lemmas -/

lemma authReducer_preserves_invariant (s : AuthState) (a : AuthAction)
    (hs : authInvariant s) (ha : actionUserNonNull a = true) :
    authInvariant (authReducer s a) := by
  cases a with
  | SET_LOADING b => simpa [authReducer, authInvariant] using hs
  | SET_USER u t =>
      cases u with
      | none => simp [actionUserNonNull] at ha
      | some v => simp [authReducer, authInvariant]
  | CLEAR_USER => simp [authReducer, authInvariant]

lemma applyActions_preserves_invariant (acts : List AuthAction) :
    ∀ s : AuthState, authInvariant s → (∀ a ∈ acts, actionUserNonNull a = true) →
      authInvariant (applyActions s acts) := by
  induction acts with
  | nil => intro s hs _; simpa [applyActions] using hs
  | cons a rest ih =>
      intro s hs hall
      have h1 : authInvariant (authReducer s a) :=
        authReducer_preserves_invariant s a hs (hall a (List.mem_cons_self a rest))
      have h2 : ∀ b ∈ rest, actionUserNonNull b = true := fun b hb =>
        hall b (List.mem_cons_of_mem a hb)
      simpa [applyActions] using ih (authReducer s a) h1 h2

/-! ## Session Store: claim theorems -/

/-- Claim C1 (counterexample): the invariant `isAuthenticated iff user and
token non-null` fails on a reachable state. With stored token "t" and
stored user-data text "null", JSON.parse succeeds with the null value, the
restore dispatches SET_USER with a null user, and the resulting state has
isAuthenticated true while user is null. -/
theorem auth_invariant_restore_null_violation :
    ¬ authInvariant (restoreEffect jsonParse
        { auth_token := some "t", user_data := some "null" } initialState).2 := by
  decide

/-- Claim C1 (amended): for every state reachable from the initial state
by a sequence of reducer actions in which every SET_USER payload carries a
non-null user (as the payload type declares; the startup restore violates
this only when the stored user-data text is "null"), isAuthenticated is
true iff both user and token are non-null. -/
theorem auth_invariant_reachable (acts : List AuthAction)
    (h : ∀ a ∈ acts, actionUserNonNull a = true) :
    authInvariant (applyActions initialState acts) :=
  applyActions_preserves_invariant acts initialState rfl h

/-- Witness for auth_invariant_reachable on a concrete action sequence. -/
theorem auth_invariant_reachable_witness :
    authInvariant (applyActions initialState
      [AuthAction.SET_LOADING false, AuthAction.SET_USER (some sampleUser) "tok",
       AuthAction.CLEAR_USER, AuthAction.SET_USER (some sampleUser) "tok2"]) :=
  auth_invariant_reachable _ (by decide)

/-- Claim C3 (amended): when durable storage holds a non-empty token
string and a non-empty user-data string that parses successfully, the
startup restore leaves storage unchanged and ends authenticated,
non-loading, with the stored token and the parsed user installed. -/
theorem restore_valid_session (parse : String → Option (Option User))
    (storage : Storage) (tok ud : String) (v : Option User)
    (htok : storage.auth_token = some tok) (htokne : tok ≠ "")
    (hud : storage.user_data = some ud) (hudne : ud ≠ "")
    (hp : parse ud = some v) :
    restoreEffect parse storage initialState =
      (storage,
       { user := v, token := some tok, isLoading := false, isAuthenticated := true }) := by
  unfold restoreEffect
  rw [htok, hud]
  simp [truthyOpt, bne_iff_ne, htokne, hudne, hp, authReducer, initialState]

/-- Witness for restore_valid_session at a concrete storage snapshot. -/
theorem restore_valid_session_witness :
    restoreEffect jsonParse
        { auth_token := some "tok", user_data := some sampleUserJson } initialState =
      ({ auth_token := some "tok", user_data := some sampleUserJson },
       { user := some sampleUser, token := some "tok", isLoading := false,
         isAuthenticated := true }) :=
  restore_valid_session jsonParse _ "tok" sampleUserJson (some sampleUser)
    rfl (by decide) rfl (by decide) (by decide)

/-- Claim C3 (counterexample): storage holding the token string "" (a
string, but falsy in JavaScript) together with a JSON-parseable user
record is skipped by the restore guard, so the store ends unauthenticated
rather than authenticated as the claim states. -/
theorem restore_empty_token_not_authenticated :
    jsonParse sampleUserJson = some (some sampleUser) ∧
    (restoreEffect jsonParse
        { auth_token := some "", user_data := some sampleUserJson } initialState).2 =
      { user := none, token := none, isLoading := false, isAuthenticated := false } := by
  decide

/-- Claim C4 (counterexample): with a stored token "t" and the stored
user record "" (which JSON.parse rejects, so the claim applies), the
restore guard sees a falsy user-data value and skips the whole branch:
both storage keys are still present afterwards, contradicting the claimed
purge. -/
theorem restore_blank_userData_keys_remain :
    jsonParse "" = none ∧
    (restoreEffect jsonParse
        { auth_token := some "t", user_data := some "" } initialState).1 =
      { auth_token := some "t", user_data := some "" } := by
  decide

/-- Claim C4 (amended): when durable storage holds a non-empty token and a
non-empty user-data string whose parse throws, the restore purges both
storage keys and ends unauthenticated and non-loading, surfacing no
error. -/
theorem restore_parse_failure_purges (parse : String → Option (Option User))
    (storage : Storage) (tok ud : String)
    (htok : storage.auth_token = some tok) (htokne : tok ≠ "")
    (hud : storage.user_data = some ud) (hudne : ud ≠ "")
    (hp : parse ud = none) :
    restoreEffect parse storage initialState =
      ({ auth_token := none, user_data := none },
       { user := none, token := none, isLoading := false, isAuthenticated := false }) := by
  unfold restoreEffect
  rw [htok, hud]
  simp [truthyOpt, bne_iff_ne, htokne, hudne, hp, authReducer, initialState]

/-- Witness for restore_parse_failure_purges at a concrete snapshot. -/
theorem restore_parse_failure_purges_witness :
    restoreEffect jsonParse
        { auth_token := some "t", user_data := some "not json" } initialState =
      ({ auth_token := none, user_data := none },
       { user := none, token := none, isLoading := false, isAuthenticated := false }) :=
  restore_parse_failure_purges jsonParse _ "t" "not json"
    rfl (by decide) rfl (by decide) (by decide)

/-- Claim C5: from every prior state and storage snapshot, logout removes
both storage keys and yields the cleared state with user and token null,
isAuthenticated false and isLoading false; the definition of logout makes
no backend call. -/
theorem logout_resets_state_and_storage (storage : Storage) (s : AuthState) :
    logout storage s =
      ({ auth_token := none, user_data := none },
       { user := none, token := none, isLoading := false, isAuthenticated := false }) := rfl

/-- Claim C6 (counterexample): a failing backend login from a prior
authenticated state re-raises the error and leaves storage unchanged, but
the store is left authenticated (only isLoading was reset), contradicting
the claim that it is left unauthenticated from every prior state. -/
theorem login_failure_preserves_authenticated_state :
    login (mockAPI_login 0 "2024-01-01T00:00:00.000Z")
        { email := "x@y.z", password := "wrong" }
        { auth_token := some "tok", user_data := some sampleUserJson }
        { user := some sampleUser, token := some "tok", isLoading := false,
          isAuthenticated := true } =
      ({ auth_token := some "tok", user_data := some sampleUserJson },
       { user := some sampleUser, token := some "tok", isLoading := false,
         isAuthenticated := true },
       some "Invalid credentials") := by
  decide

/-- Claim C6 (amended): when the backend call fails, login leaves durable
storage unchanged, re-raises the error, and resets only isLoading to
false, preserving the prior user, token and isAuthenticated; in
particular an unauthenticated prior state ends unauthenticated and
non-loading. -/
theorem login_failure_resets_loading_only
    (api : LoginCredentials → Except String AuthResponse)
    (credentials : LoginCredentials) (storage : Storage) (s : AuthState) (err : String)
    (h : api credentials = Except.error err) :
    login api credentials storage s =
      (storage,
       { user := s.user, token := s.token, isLoading := false,
         isAuthenticated := s.isAuthenticated },
       some err) := by
  simp [login, h, authReducer]

/-- Witness for login_failure_resets_loading_only with the mocked backend
rejecting wrong credentials from an unauthenticated state. -/
theorem login_failure_resets_loading_only_witness :
    login (mockAPI_login 0 "2024-01-01T00:00:00.000Z")
        { email := "x@y.z", password := "wrong" }
        { auth_token := none, user_data := none }
        { user := none, token := none, isLoading := false, isAuthenticated := false } =
      ({ auth_token := none, user_data := none },
       { user := none, token := none, isLoading := false, isAuthenticated := false },
       some "Invalid credentials") :=
  login_failure_resets_loading_only _ _ _ _ _ rfl

/-- Claim C9: the session accessor returns a loud error when no provider
context value is installed, and returns the installed value when one
is. -/
theorem useAuth_contract :
    (∀ α : Type, @useAuth α none =
        Except.error "useAuth must be used within an AuthProvider") ∧
    ∀ (α : Type) (ctx : α), useAuth (some ctx) = Except.ok ctx :=
  ⟨fun _ => rfl, fun _ _ => rfl⟩


/-! ## Lemmas about the form validator -/

/-- The experience slot of validateForm: the employment-status check runs
after the experience checks and writes the same slot. -/
lemma validateForm_experience (fd : FormData) :
    (validateForm fd).experience =
      (if fd.employmentStatus = "" then some "Please select your employment status"
       else if jsTrim fd.experience = "" then some "Experience is required"
       else if experienceBad fd.experience then some "Experience must be 0 or greater"
       else none) := by
  simp only [validateForm, apply_ite FormErrors.experience, ite_self]

/-- The phone slot of validateForm. -/
lemma validateForm_phone (fd : FormData) :
    (validateForm fd).phone =
      (if jsTrim fd.phone = "" then some "Phone number is required"
       else if !validatePhone fd.phone then some "Phone number must be exactly 10 digits"
       else none) := by
  simp only [validateForm, apply_ite FormErrors.phone, ite_self]

lemma all_of_dropWhile_all (p : Char → Bool) (l : List Char)
    (h : (l.dropWhile p).all p = true) : l.all p = true := by
  induction l with
  | nil => rfl
  | cons c t ih =>
      by_cases hc : p c = true
      · rw [List.dropWhile_cons_of_pos hc] at h
        simp [hc, ih h]
      · rw [List.dropWhile_cons_of_neg hc] at h
        simp only [List.all_cons, Bool.and_eq_true] at h
        exact absurd h.1 hc

lemma jsTrimList_eq_nil_iff (l : List Char) :
    jsTrimList l = [] ↔ l.all Char.isWhitespace = true := by
  unfold jsTrimList
  rw [List.reverse_eq_nil_iff, List.dropWhile_eq_nil_iff]
  constructor
  · intro h
    refine all_of_dropWhile_all _ _ ?_
    rw [← List.all_reverse, List.all_eq_true]
    exact h
  · intro h x hx
    have h2 : l.dropWhile Char.isWhitespace = [] := by
      rw [List.dropWhile_eq_nil_iff]
      intro y hy
      exact (List.all_eq_true.mp h) y hy
    rw [h2] at hx
    simp at hx

lemma jsTrim_eq_empty_iff (s : String) :
    jsTrim s = "" ↔ s.toList.all Char.isWhitespace = true := by
  unfold jsTrim
  constructor
  · intro h
    have h2 : jsTrimList s.toList = [] := congrArg String.data h
    exact (jsTrimList_eq_nil_iff _).mp h2
  · intro h
    rw [(jsTrimList_eq_nil_iff _).mpr h]

lemma parseIntJS_of_blank (s : String) (h : s.toList.all Char.isWhitespace = true) :
    parseIntJS s = none := by
  have h2 : s.toList.dropWhile Char.isWhitespace = [] := by
    rw [List.dropWhile_eq_nil_iff]
    exact fun x hx => (List.all_eq_true.mp h) x hx
  unfold parseIntJS
  simp only [h2]
  rfl

lemma digit_not_whitespace (c : Char) (hd : c.isDigit = true)
    (hw : c.isWhitespace = true) : False := by
  unfold Char.isWhitespace at hw
  simp only [Bool.or_eq_true, decide_eq_true_eq] at hw
  rcases hw with ((h | h) | h) | h <;> rw [h] at hd <;> revert hd <;> decide

lemma validatePhone_not_blank (p : String) (h : validatePhone p = true) :
    ¬ jsTrim p = "" := by
  intro hb
  rw [jsTrim_eq_empty_iff] at hb
  unfold validatePhone at h
  simp only [Bool.and_eq_true, decide_eq_true_eq] at h
  obtain ⟨hlen, hdig⟩ := h
  cases hl : p.toList with
  | nil => rw [hl] at hlen; simp at hlen
  | cons c t =>
      have hd : c.isDigit = true := by
        have := List.all_eq_true.mp hdig
        exact this c (by rw [hl]; exact List.mem_cons_self c t)
      have hw : c.isWhitespace = true := by
        have := List.all_eq_true.mp hb
        exact this c (by rw [hl]; exact List.mem_cons_self c t)
      exact digit_not_whitespace c hd hw

lemma getError_clearError_self (er : FormErrors) (n : String) :
    getError (clearError er n) n = none := by
  unfold getError
  split_ifs with h1 h2 h3 h4 h5 h6 h7
  · subst h1; rfl
  · subst h2; rfl
  · subst h3; rfl
  · subst h4; rfl
  · subst h5; rfl
  · subst h6; rfl
  · subst h7; rfl
  · rfl

lemma clearError_fullName (er : FormErrors) (n : String) (h : n ≠ "fullName") :
    (clearError er n).fullName = er.fullName := by
  simp [clearError, apply_ite FormErrors.fullName, h]

lemma clearError_email (er : FormErrors) (n : String) (h : n ≠ "email") :
    (clearError er n).email = er.email := by
  simp [clearError, apply_ite FormErrors.email, h]

lemma clearError_phone (er : FormErrors) (n : String) (h : n ≠ "phone") :
    (clearError er n).phone = er.phone := by
  simp [clearError, apply_ite FormErrors.phone, h]

lemma clearError_experience (er : FormErrors) (n : String) (h : n ≠ "experience") :
    (clearError er n).experience = er.experience := by
  simp [clearError, apply_ite FormErrors.experience, h]

lemma clearError_currentCompany (er : FormErrors) (n : String) (h : n ≠ "currentCompany") :
    (clearError er n).currentCompany = er.currentCompany := by
  simp [clearError, apply_ite FormErrors.currentCompany, h]

lemma clearError_skills (er : FormErrors) (n : String) (h : n ≠ "skills") :
    (clearError er n).skills = er.skills := by
  simp [clearError, apply_ite FormErrors.skills, h]

lemma clearError_declaration (er : FormErrors) (n : String) (h : n ≠ "declaration") :
    (clearError er n).declaration = er.declaration := by
  simp [clearError, apply_ite FormErrors.declaration, h]

lemma getError_clearError_other (er : FormErrors) (n m : String) (h : m ≠ n) :
    getError (clearError er n) m = getError er m := by
  unfold getError
  split_ifs with h1 h2 h3 h4 h5 h6 h7
  · exact clearError_fullName er n (fun hn => h (h1.trans hn.symm))
  · exact clearError_email er n (fun hn => h (h2.trans hn.symm))
  · exact clearError_phone er n (fun hn => h (h3.trans hn.symm))
  · exact clearError_experience er n (fun hn => h (h4.trans hn.symm))
  · exact clearError_currentCompany er n (fun hn => h (h5.trans hn.symm))
  · exact clearError_skills er n (fun hn => h (h6.trans hn.symm))
  · exact clearError_declaration er n (fun hn => h (h7.trans hn.symm))
  · rfl

/-- Claim C2: for every form draft whose employment-status field is
unset, whole-form validation writes the employment-status message into
the experience slot of the error map, overwriting any experience-field
error the same pass produced (the later write is unconditional in that
slot). -/
theorem employmentStatus_overwrites_experience_error (fd : FormData)
    (h : fd.employmentStatus = "") :
    (validateForm fd).experience = some "Please select your employment status" := by
  rw [validateForm_experience fd, if_pos h]

/-- Witness for employmentStatus_overwrites_experience_error on the
initial draft, where the empty experience field had already produced the
required-field error that the status message overwrites. -/
theorem employmentStatus_overwrites_experience_error_witness :
    (validateForm (initialFormData none)).experience =
      some "Please select your employment status" :=
  employmentStatus_overwrites_experience_error (initialFormData none) rfl

/-- Claim C7: for every form state and input event, handling the change
yields an error map with no entry for the edited field (cleared without
re-validation), while every other field keeps its previous error
entry. -/
theorem handleInputChange_clears_edited_field (e : InputEvent) (fd : FormData)
    (errors : FormErrors) :
    getError (handleInputChange e fd errors).2 e.name = none ∧
    ∀ other : String, other ≠ e.name →
      getError (handleInputChange e fd errors).2 other = getError errors other := by
  have h2 : (handleInputChange e fd errors).2 =
      (if (getError errors e.name).isSome then clearError errors e.name else errors) := rfl
  rw [h2]
  by_cases hs : (getError errors e.name).isSome = true
  · rw [if_pos hs]
    exact ⟨getError_clearError_self errors e.name,
           fun other ho => getError_clearError_other errors e.name other ho⟩
  · rw [if_neg hs]
    refine ⟨?_, fun other ho => rfl⟩
    exact Option.not_isSome_iff_eq_none.mp hs

/-- Witness for handleInputChange_clears_edited_field: editing the phone
field clears the phone error and keeps the email error. -/
theorem handleInputChange_clears_edited_field_witness :
    getError (handleInputChange
        { name := "phone", value := "12345", etype := "tel", checked := false }
        (initialFormData none)
        { phone := some "Phone number is required", email := some "Email is required" }).2
      "phone" = none ∧
    getError (handleInputChange
        { name := "phone", value := "12345", etype := "tel", checked := false }
        (initialFormData none)
        { phone := some "Phone number is required", email := some "Email is required" }).2
      "email" = some "Email is required" :=
  ⟨(handleInputChange_clears_edited_field _ _ _).1,
   by rw [(handleInputChange_clears_edited_field
        { name := "phone", value := "12345", etype := "tel", checked := false }
        (initialFormData none)
        { phone := some "Phone number is required", email := some "Email is required" }).2
        "email" (by decide)]; rfl⟩

/-- Claim C8: a change event on the phone field stores the input with
non-digits removed and the result truncated to ten characters; typing
"12a34" stores "1234"; and whole-form validation leaves the phone slot
clean exactly when the stored value is ten characters long and all
digits. -/
theorem phone_filter_and_validation (e : InputEvent) (fd : FormData) (errors : FormErrors)
    (hname : e.name = "phone") (htype : e.etype ≠ "checkbox") :
    (handleInputChange e fd errors).1.phone =
        String.mk ((e.value.toList.filter Char.isDigit).take 10) ∧
    (handleInputChange { e with value := "12a34" } fd errors).1.phone = "1234" ∧
    ∀ fd' : FormData, ((validateForm fd').phone = none ↔
      (fd'.phone.toList.length = 10 ∧ fd'.phone.toList.all Char.isDigit = true)) := by
  have h1 : ¬(e.etype = "checkbox" ∧ e.name = "skills") := fun hc => htype hc.1
  have h3 : ¬(e.name = "fullName") := by rw [hname]; decide
  refine ⟨?_, ?_, ?_⟩
  · simp only [handleInputChange, if_neg h1, if_neg htype, if_neg h3, if_pos hname]
  · simp only [handleInputChange, if_neg h1, if_neg htype, if_neg h3, if_pos hname]
    decide
  · intro fd'
    rw [validateForm_phone fd']
    by_cases hb : jsTrim fd'.phone = ""
    · rw [if_pos hb]
      constructor
      · intro hc; simp at hc
      · rintro ⟨hlen, hdig⟩
        have hv : validatePhone fd'.phone = true := by
          unfold validatePhone
          simp only [Bool.and_eq_true, decide_eq_true_eq]
          exact ⟨hlen, hdig⟩
        exact absurd hb (validatePhone_not_blank fd'.phone hv)
    · rw [if_neg hb]
      constructor
      · intro hnone
        by_cases hv : validatePhone fd'.phone = true
        · unfold validatePhone at hv
          simp only [Bool.and_eq_true, decide_eq_true_eq] at hv
          exact hv
        · rw [Bool.not_eq_true] at hv
          rw [hv] at hnone
          simp at hnone
      · rintro ⟨hlen, hdig⟩
        have hv : validatePhone fd'.phone = true := by
          unfold validatePhone
          simp only [Bool.and_eq_true, decide_eq_true_eq]
          exact ⟨hlen, hdig⟩
        rw [hv]
        rfl

/-- Witness for phone_filter_and_validation at the concrete event typing
"12a34" into the phone field. -/
theorem phone_filter_and_validation_witness :
    (handleInputChange { name := "phone", value := "12a34", etype := "tel", checked := false }
        (initialFormData none) {}).1.phone = "1234" :=
  (phone_filter_and_validation
    { name := "phone", value := "12a34", etype := "tel", checked := false }
    (initialFormData none) {} rfl (by decide)).2.1

/-- Claim C10: with the employment status selected (so its message does
not occupy the slot), the experience field passes whole-form validation
exactly when the integer-prefix parse of its value succeeds with a
non-negative integer; in particular the value "5abc" passes even though
it is not a numeral. -/
theorem experience_integer_prefix_validation (fd : FormData)
    (h : fd.employmentStatus ≠ "") :
    ((validateForm fd).experience = none ↔
      ∃ n : Int, parseIntJS fd.experience = some n ∧ 0 ≤ n) ∧
    (fd.experience = "5abc" → (validateForm fd).experience = none) := by
  have hx := validateForm_experience fd
  rw [if_neg h] at hx
  constructor
  · rw [hx]
    by_cases hb : jsTrim fd.experience = ""
    · rw [if_pos hb]
      constructor
      · intro hc; simp at hc
      · rintro ⟨n, hn, _⟩
        rw [parseIntJS_of_blank fd.experience ((jsTrim_eq_empty_iff _).mp hb)] at hn
        simp at hn
    · rw [if_neg hb]
      by_cases hbad : experienceBad fd.experience = true
      · rw [if_pos hbad]
        constructor
        · intro hc; simp at hc
        · rintro ⟨n, hn, h0⟩
          unfold experienceBad at hbad
          rw [hn] at hbad
          simp only [decide_eq_true_eq] at hbad
          omega
      · rw [if_neg hbad]
        constructor
        · intro _
          unfold experienceBad at hbad
          cases hp : parseIntJS fd.experience with
          | none => rw [hp] at hbad; simp at hbad
          | some n =>
              rw [hp] at hbad
              simp only [decide_eq_true_eq] at hbad
              exact ⟨n, rfl, by omega⟩
        · intro _; rfl
  · intro he
    rw [hx, he]
    decide

/-- Witness for experience_integer_prefix_validation on a draft whose
experience field is "5abc" and whose employment status is "no". -/
theorem experience_integer_prefix_validation_witness :
    (validateForm
      { fullName := "", email := "", phone := "", experience := "5abc",
        employmentStatus := "no", currentCompany := "", skills := [],
        declaration := false }).experience = none :=
  (experience_integer_prefix_validation _ (by decide)).2 rfl
